import Mathlib

/-!
Shallow embedding of the buffered logger (logger.hpp and the buffered
logger.cpp translation unit).  Strings are modelled as Lean `String`s of
single-byte characters, so `String.length` coincides with the byte count
`std::string::size()` returns for the ASCII data the logger produces.
The file at the configured path is modelled as the list of chunks
appended to it, the backup file as an optional such list, and the console
as a list of mirrored lines.  Wall-clock and steady-clock readings are
passed in as parameters (the number of microseconds since the epoch for
the wall clock, milliseconds for the steady clock).
-/

namespace LoggerModel

/-- LogLevel enumeration from logger.hpp: ERR = 0, WARNING = 1, INFO = 2,
DEBUG = 3 (lower value means more severe). -/
inductive LogLevel where
  | ERR
  | WARNING
  | INFO
  | DEBUG
deriving DecidableEq, Repr

/-- Underlying integer value of a LogLevel, as fixed by the enum. -/
def levelToNat : LogLevel → Nat
  | .ERR => 0
  | .WARNING => 1
  | .INFO => 2
  | .DEBUG => 3

/-- Logger::logLevelToString: the fixed five-character tags. -/
def logLevelToString : LogLevel → String
  | .ERR => "ERROR"
  | .WARNING => "WARN "
  | .INFO => "INFO "
  | .DEBUG => "DEBUG"

/-- BUFFER_SIZE from logger.hpp: the byte size of the stack buffers that
vsnprintf renders into. -/
def BUFFER_SIZE : Nat := 256

/-- LOG_BUFFER_CAPACITY from logger.hpp: flush when this many lines are
pending. -/
def LOG_BUFFER_CAPACITY : Nat := 100

/-- FLUSH_INTERVAL_MS from logger.hpp: flush when this many milliseconds
have elapsed since m_lastFlushTime. -/
def FLUSH_INTERVAL_MS : Nat := 1000

/-- The negation of the level guard in Logger::log
(`if (!m_initialized || level > m_currentLevel) return;`): the message
proceeds past the level filter iff `level > m_currentLevel` is false. -/
def logProceeds (level current : LogLevel) : Bool :=
  !(decide (levelToNat level > levelToNat current))

/-- vsnprintf into a `BUFFER_SIZE`-byte stack buffer: at most
`BUFFER_SIZE - 1` bytes of the rendered text are kept (one byte is the
terminating NUL); longer renderings are silently cut off.  Bytes are
modelled as `Char`s. -/
def renderMessage (rendered : List Char) : List Char :=
  rendered.take (BUFFER_SIZE - 1)

/-- The state of the Logger singleton: its member variables plus the
pieces of the outside world it owns (main file content, backup file
content, console output). -/
structure LoggerState where
  currentLevel : LogLevel
  logFilePath : String
  maxFileSize : Nat
  initialized : Bool
  consoleOutput : Bool
  fileOpen : Bool
  messageBuffer : List String
  currentFileSize : Nat
  lastFlushTime : Nat
  mainFile : List String
  backupFile : Option (List String)
  console : List String
deriving DecidableEq, Repr

/-- Total byte size of a file content given as appended chunks. -/
def fileBytes (chunks : List String) : Nat :=
  (chunks.map String.length).sum

/-- Logger::openLogFile: if the stream is already open it does nothing;
otherwise it opens the file in append mode (creating it when absent),
seeks to the end and reads the on-disk size into m_currentFileSize.
Opening is modelled as always succeeding (on failure the C++ callers
return early). -/
def openLogFile (st : LoggerState) : LoggerState :=
  if st.fileOpen then st
  else { st with fileOpen := true, currentFileSize := fileBytes st.mainFile }

/-- Logger::closeLogFile. -/
def closeLogFile (st : LoggerState) : LoggerState :=
  { st with fileOpen := false }

/-- Logger::flushBuffer: streams every buffered message to the file in
order, flushes the stream, and clears the buffer.  It does not touch
m_lastFlushTime, m_currentFileSize or any other member. -/
def flushBuffer (st : LoggerState) : LoggerState :=
  { st with mainFile := st.mainFile ++ st.messageBuffer, messageBuffer := [] }

/-- Logger::rotateLogFile: removes a pre-existing backup file, then
renames the current file to the backup name (the path then has no file
until it is reopened; the content at the path is therefore empty). -/
def rotateLogFile (st : LoggerState) : LoggerState :=
  let st1 := if st.backupFile.isSome then { st with backupFile := none } else st
  { st1 with backupFile := some st1.mainFile, mainFile := [] }

/-- The rotation predicate of the spec, exactly the condition tested at
the top of Logger::checkRotation. -/
def shouldRotate (currentSize incomingSize maxSize : Nat) : Bool :=
  decide (currentSize + incomingSize > maxSize)

/-- Logger::checkRotation: when the incoming message would push the size
counter past m_maxFileSize, it writes the buffered messages to the
current file, clears the buffer, closes the file, rotates it, reopens a
fresh file at the original path and zeroes the size counter. -/
def checkRotation (messageSize : Nat) (st : LoggerState) : LoggerState :=
  if shouldRotate st.currentFileSize messageSize st.maxFileSize then
    let st1 := { st with mainFile := st.mainFile ++ st.messageBuffer,
                         messageBuffer := [] }
    let st2 := closeLogFile st1
    let st3 := rotateLogFile st2
    let st4 := openLogFile st3
    { st4 with currentFileSize := 0 }
  else st

/-- The composed line built in Logger::log:
`"[" << timestamp << "] [" << logLevelToString(level) << "] " << message << "\n"`. -/
def buildLogEntry (timestamp : String) (level : LogLevel) (message : String) : String :=
  "[" ++ timestamp ++ "] [" ++ logLevelToString level ++ "] " ++ message ++ "\n"

/-- The value `logEntry.size()` yields after
`m_messageBuffer.push_back(std::move(logEntry))`: push_back move-constructs
the vector element, and every mainstream standard library resets the
moved-from std::string to the empty string, so the size read back is 0. -/
def movedFromSize (_ : String) : Nat := 0

/-- Logger::log after the variadic front end: `timestamp` is the string
getTimestamp produced, `message` the vsnprintf-rendered text, `nowMs`
the steady-clock reading (milliseconds) taken inside the call.  The
timestamp and the rendering happen before lockMutex; everything modelled
here is the critical section. -/
def logMessage (level : LogLevel) (timestamp : String) (message : String)
    (nowMs : Nat) (st : LoggerState) : LoggerState :=
  if !st.initialized || !(logProceeds level st.currentLevel) then st
  else
    let logEntry := buildLogEntry timestamp level message
    let st1 := if st.consoleOutput
               then { st with console := st.console ++ [logEntry] }
               else st
    let st2 := openLogFile st1
    let st3 := checkRotation logEntry.length st2
    let st4 := { st3 with messageBuffer := st3.messageBuffer ++ [logEntry],
                          currentFileSize :=
                            st3.currentFileSize + movedFromSize logEntry }
    if st4.messageBuffer.length ≥ LOG_BUFFER_CAPACITY
        || (nowMs - st4.lastFlushTime) ≥ FLUSH_INTERVAL_MS then
      flushBuffer st4
    else st4

/-- The initialization marker line written by Logger::init. -/
def initMessage (timestamp : String) : String :=
  "[" ++ timestamp ++ "] [INFO] Logger initialized\n"

/-- Logger::init.  If already initialized it returns true at once,
before any assignment.  Otherwise it stores the four configuration
arguments, creates the log directory (`dirOk` says whether that
succeeded), opens the log file (`fileOk`), reads the on-disk size,
synchronously writes the initialization marker, and marks the logger
initialized.  On a failed directory creation or open it returns false
with the configuration already assigned but `initialized` still false. -/
def loggerInit (path : String) (level : LogLevel) (consoleOut : Bool)
    (maxSize : Nat) (timestamp : String) (dirOk fileOk : Bool)
    (st : LoggerState) : Bool × LoggerState :=
  if st.initialized then (true, st)
  else
    let st1 := { st with logFilePath := path, currentLevel := level,
                         consoleOutput := consoleOut, maxFileSize := maxSize }
    if !dirOk then (false, st1)
    else if !fileOk then (false, st1)
    else
      let st2 := openLogFile st1
      let line := initMessage timestamp
      let st3 := { st2 with mainFile := st2.mainFile ++ [line],
                            currentFileSize := st2.currentFileSize + line.length,
                            initialized := true }
      (true, st3)

/-- Zero-pad a number to two digits, as snprintf `%02d` does for the
in-range field values localtime produces. -/
def pad2 (n : Nat) : String :=
  if n < 10 then "0" ++ toString n else toString n

/-- Zero-pad a number to three digits, as snprintf `%03ld` does for a
value below 1000. -/
def pad3 (n : Nat) : String :=
  if n < 10 then "00" ++ toString n
  else if n < 100 then "0" ++ toString n
  else toString n

/-- Zero-pad a number to four digits, as snprintf `%04d` does for the
year values localtime produces. -/
def pad4 (n : Nat) : String :=
  if n < 10 then "000" ++ toString n
  else if n < 100 then "00" ++ toString n
  else if n < 1000 then "0" ++ toString n
  else toString n

/-- The broken-down local time localtime_r fills in, already shifted to
calendar convention (tm_year + 1900, tm_mon + 1). -/
structure Tm where
  year : Nat
  month : Nat
  day : Nat
  hour : Nat
  minute : Nat
  second : Nat
deriving DecidableEq, Repr

/-- The sub-second field Logger::getTimestamp computes:
`duration_cast<microseconds>(now.time_since_epoch()) % 1000`, the
microsecond count modulo 1000.  `usSinceEpoch` is the wall-clock reading
in microseconds. -/
def subSecondField (usSinceEpoch : Nat) : Nat :=
  usSinceEpoch % 1000

/-- The field the spec prescribes for the `.mmm` position: the
millisecond component of the wall-clock instant, truncated from the
microsecond resolution of the reading. -/
def specMillisecondField (usSinceEpoch : Nat) : Nat :=
  usSinceEpoch / 1000 % 1000

/-- Logger::getTimestamp: snprintf with format
`%04d-%02d-%02d %02d:%02d:%02d.%03ld` over the localtime fields and the
sub-second field. -/
def getTimestamp (tm : Tm) (usSinceEpoch : Nat) : String :=
  pad4 tm.year ++ "-" ++ pad2 tm.month ++ "-" ++ pad2 tm.day ++ " " ++
    pad2 tm.hour ++ ":" ++ pad2 tm.minute ++ ":" ++ pad2 tm.second ++ "." ++
    pad3 (subSecondField usSinceEpoch)

/-- A quiescent initialized logger state: empty pending buffer, console
mirroring off, file open, construction-time flush timestamp. -/
def sampleIdle : LoggerState :=
  { currentLevel := .INFO
    logFilePath := "./logs/logger.log"
    maxFileSize := 32768
    initialized := true
    consoleOutput := false
    fileOpen := true
    messageBuffer := []
    currentFileSize := 0
    lastFlushTime := 0
    mainFile := []
    backupFile := none
    console := [] }

/-- An initialized state with two pending lines, sized so that a small
incoming message forces rotation, and with a pre-existing backup file. -/
def sampleFull : LoggerState :=
  { sampleIdle with maxFileSize := 5, currentFileSize := 4,
                    mainFile := ["a\n"], messageBuffer := ["b\n"],
                    backupFile := some ["old\n"] }

/-- An initialized state with some on-disk bytes already counted. -/
def sampleActive : LoggerState :=
  { sampleIdle with currentFileSize := 100 }

/-- An initialized state with one pending line, constructed at steady
time 0. -/
def samplePending : LoggerState :=
  { sampleIdle with messageBuffer := ["[t] [INFO ] a\n"], currentFileSize := 100 }

/-- C1: Logger::flushBuffer writes every pending buffered line to the
file in enqueue order, then clears the pending sequence; calling it with
an empty pending sequence leaves the state unchanged. -/
theorem flushBuffer_drains_in_order (st : LoggerState) :
    (flushBuffer st).mainFile = st.mainFile ++ st.messageBuffer ∧
    (flushBuffer st).messageBuffer = [] ∧
    (st.messageBuffer = [] → flushBuffer st = st) := by
  refine ⟨rfl, rfl, fun h => ?_⟩
  cases st
  simp_all [flushBuffer]

/-- Witness for C1 at a concrete quiescent state. -/
theorem flushBuffer_drains_in_order_witness :
    (flushBuffer sampleIdle).mainFile = sampleIdle.mainFile ++ sampleIdle.messageBuffer ∧
    (flushBuffer sampleIdle).messageBuffer = [] ∧
    flushBuffer sampleIdle = sampleIdle :=
  ⟨(flushBuffer_drains_in_order sampleIdle).1,
   (flushBuffer_drains_in_order sampleIdle).2.1,
   (flushBuffer_drains_in_order sampleIdle).2.2 rfl⟩

/-- C2: the level guard of Logger::log admits a message iff the
requested level is numerically at most the configured threshold, under
ERR = 0 < WARNING = 1 < INFO = 2 < DEBUG = 3; in particular threshold
INFO admits ERR, WARNING and INFO but not DEBUG. -/
theorem level_filter_admits :
    (∀ req thr : LogLevel,
      logProceeds req thr = decide (levelToNat req ≤ levelToNat thr)) ∧
    logProceeds .ERR .INFO = true ∧
    logProceeds .WARNING .INFO = true ∧
    logProceeds .INFO .INFO = true ∧
    logProceeds .DEBUG .INFO = false := by
  refine ⟨fun req thr => ?_, rfl, rfl, rfl, rfl⟩
  cases req <;> cases thr <;> rfl

/-- C3: the rotation trigger is exactly `currentSize + incomingSize >
maxSize`, with strict greater-than: a message that exactly fills the
remaining budget does not rotate, and Logger::checkRotation changes
nothing whenever the budget is not strictly exceeded. -/
theorem shouldRotate_strict_threshold (c i m : Nat) (st : LoggerState)
    (h : st.currentFileSize + i ≤ st.maxFileSize) :
    (shouldRotate c i m = true ↔ c + i > m) ∧
    (c + i = m → shouldRotate c i m = false) ∧
    checkRotation i st = st := by
  have hno : ¬ (st.currentFileSize + i > st.maxFileSize) := by omega
  refine ⟨by simp [shouldRotate], fun he => by simp [shouldRotate, he], ?_⟩
  simp [checkRotation, shouldRotate, hno]

/-- Witness for C3: an exactly-filling message (1 + 2 = 3) and a state
whose budget is not exceeded. -/
theorem shouldRotate_strict_threshold_witness :
    (shouldRotate 1 2 3 = true ↔ 1 + 2 > 3) ∧
    shouldRotate 1 2 3 = false ∧
    checkRotation 2 sampleIdle = sampleIdle :=
  ⟨(shouldRotate_strict_threshold 1 2 3 sampleIdle (by decide)).1,
   (shouldRotate_strict_threshold 1 2 3 sampleIdle (by decide)).2.1 rfl,
   (shouldRotate_strict_threshold 1 2 3 sampleIdle (by decide)).2.2⟩

/-- C4: when rotation triggers, Logger::checkRotation first drains the
pending lines into the current file, then rotates: the backup ends up
holding the whole previous generation (old file content followed by the
pending lines, in order, so nothing is lost or reordered), the path is
reopened as a fresh empty file, the pending sequence is empty and the
size counter is reset to zero. -/
theorem checkRotation_drain_then_rotate (i : Nat) (st : LoggerState)
    (h : st.currentFileSize + i > st.maxFileSize) :
    (checkRotation i st).backupFile = some (st.mainFile ++ st.messageBuffer) ∧
    (checkRotation i st).mainFile = [] ∧
    (checkRotation i st).messageBuffer = [] ∧
    (checkRotation i st).currentFileSize = 0 ∧
    (checkRotation i st).fileOpen = true := by
  have hs : shouldRotate st.currentFileSize i st.maxFileSize = true := by
    simp [shouldRotate]; omega
  cases hb : st.backupFile <;>
    simp [checkRotation, hs, closeLogFile, rotateLogFile, openLogFile, hb, fileBytes]

/-- Witness for C4 at a concrete state with a pre-existing backup. -/
theorem checkRotation_drain_then_rotate_witness :
    (checkRotation 3 sampleFull).backupFile
        = some (sampleFull.mainFile ++ sampleFull.messageBuffer) ∧
    (checkRotation 3 sampleFull).mainFile = [] ∧
    (checkRotation 3 sampleFull).messageBuffer = [] ∧
    (checkRotation 3 sampleFull).currentFileSize = 0 ∧
    (checkRotation 3 sampleFull).fileOpen = true :=
  checkRotation_drain_then_rotate 3 sampleFull (by decide)

/-- C5 (code bug): Logger::log appends the rendered line to the pending
sequence, but the size counter is increased by `logEntry.size()` read
AFTER `std::move(logEntry)` into push_back, which is 0 — so the counter
does not grow by the byte length of the 40-byte line. -/
theorem log_enqueues_but_size_counter_unchanged :
    (logMessage .INFO "2024-01-02 03:04:05.006" "hello" 0 sampleActive).messageBuffer
        = [buildLogEntry "2024-01-02 03:04:05.006" .INFO "hello"] ∧
    (logMessage .INFO "2024-01-02 03:04:05.006" "hello" 0 sampleActive).currentFileSize
        = sampleActive.currentFileSize ∧
    (buildLogEntry "2024-01-02 03:04:05.006" .INFO "hello").length = 40 := by
  refine ⟨by decide, by decide, by decide⟩

/-- C6 (code bug): no drain ever records a flush timestamp —
Logger::flushBuffer leaves m_lastFlushTime untouched (it is assigned
only in the constructor), so right after a drain at steady time 5000 ms
a fresh message still sees an elapsed time of 5000 ms measured from
construction and is flushed immediately. -/
theorem drain_never_records_flush_time :
    (∀ st : LoggerState, (flushBuffer st).lastFlushTime = st.lastFlushTime) ∧
    (flushBuffer samplePending).lastFlushTime = 0 ∧
    (logMessage .INFO "2024-01-02 03:04:05.006" "late" 5000
        (flushBuffer samplePending)).messageBuffer = [] := by
  refine ⟨fun st => rfl, rfl, by decide⟩

/-- C7 (code bug): the sub-second field of Logger::getTimestamp is
`duration_cast<microseconds>(since_epoch) % 1000` — the microsecond
count modulo 1000 — not the truncated millisecond component: at an
instant 123456 microseconds past the epoch the line shows `.456` while
the millisecond component is 123. -/
theorem getTimestamp_prints_microsecond_remainder :
    subSecondField 123456 = 456 ∧
    specMillisecondField 123456 = 123 ∧
    getTimestamp ⟨2024, 1, 2, 3, 4, 5⟩ 123456 = "2024-01-02 03:04:05.456" ∧
    subSecondField 123456 ≠ specMillisecondField 123456 := by
  refine ⟨rfl, rfl, by decide, by decide⟩

/-- C8: a second Logger::init call on an already-initialized logger
returns true and changes no state, whatever its arguments — the
configuration of the first successful call persists. -/
theorem init_second_call_noop (path : String) (level : LogLevel)
    (consoleOut : Bool) (maxSize : Nat) (ts : String) (dirOk fileOk : Bool)
    (st : LoggerState) (h : st.initialized = true) :
    loggerInit path level consoleOut maxSize ts dirOk fileOk st = (true, st) := by
  simp [loggerInit, h]

/-- Witness for C8: a contradicting second init call on an initialized
state is a no-op returning true. -/
theorem init_second_call_noop_witness :
    loggerInit "./other.log" .DEBUG true 1000 "t" true true sampleIdle
      = (true, sampleIdle) :=
  init_second_call_noop "./other.log" .DEBUG true 1000 "t" true true sampleIdle rfl

/-- C10: rendering goes through a fixed 256-byte vsnprintf buffer, so
the message text kept is the first 255 bytes of the rendering: at most
255 bytes, unchanged when it already fits, silently cut otherwise, and
the second rendering pass inside Logger::log changes nothing further. -/
theorem render_truncates_silently (rendered : List Char) :
    (renderMessage rendered).length ≤ 255 ∧
    renderMessage rendered = rendered.take 255 ∧
    renderMessage (renderMessage rendered) = renderMessage rendered ∧
    (rendered.length ≤ 255 → renderMessage rendered = rendered) := by
  refine ⟨?_, rfl, ?_, fun h => ?_⟩
  · exact List.length_take_le 255 rendered
  · simp [renderMessage, List.take_take]
  · simpa [renderMessage, BUFFER_SIZE] using List.take_of_length_le h

/-- Witness for C10 at a concrete two-byte rendering. -/
theorem render_truncates_silently_witness :
    (renderMessage ['h', 'i']).length ≤ 255 ∧
    renderMessage ['h', 'i'] = ['h', 'i'].take 255 ∧
    renderMessage (renderMessage ['h', 'i']) = renderMessage ['h', 'i'] ∧
    renderMessage ['h', 'i'] = ['h', 'i'] :=
  ⟨(render_truncates_silently ['h', 'i']).1,
   (render_truncates_silently ['h', 'i']).2.1,
   (render_truncates_silently ['h', 'i']).2.2.1,
   (render_truncates_silently ['h', 'i']).2.2.2 (by decide)⟩

end LoggerModel
